import Mathlib

/-!
Verification development for the RepairMate application (`fixit_app.py`).

The application is a single-session chat UI.  We embed its session state and
the three state-changing handlers — the "Send Message" button, the
"Start New Session" button and the file-upload handler — as pure Lean
functions, with the remote Gemini service abstracted as an oracle
(`GeminiEnv`) supplying the outcome of each remote interaction.
-/

namespace RepairMate

/-- Role of a chat turn, as stored in `st.session_state.chat_history`. -/
inductive Role
  | user
  | assistant
deriving DecidableEq

/-- One entry of `st.session_state.chat_history`: a dict with keys
`role` and `content`. -/
structure ChatTurn where
  role : Role
  content : String
deriving DecidableEq

/-- Opaque media value held in `st.session_state.uploaded_media`: either a
decoded PIL image or a processed Gemini video-file handle. -/
inductive MediaRef
  | image (id : Nat)
  | video (handle : Nat)
deriving DecidableEq

/-- The `media_type` session field: the string "image" or "video". -/
inductive MediaKind
  | image
  | video
deriving DecidableEq

/-- One element of the `content` list built inside `send_message`: either the
media object or the message text. -/
inductive Part
  | media (m : MediaRef)
  | text (s : String)
deriving DecidableEq

/-- What is actually passed to `self.chat.send_message`: either a bare string
or a list of content parts. -/
inductive Payload
  | bare (s : String)
  | parts (l : List Part)
deriving DecidableEq

/-- Outcome of one remote `chat.send_message` call: the response text, or an
exception carrying its message `str(e)`. -/
inductive RemoteOutcome
  | ok (text : String)
  | err (msg : String)
deriving DecidableEq

/-- Oracle for the remote interactions a single `send_message` call can make:
whether `start_chat` succeeds when invoked at entry (`startOk1`), the outcome
of the first `chat.send_message` attempt (`outcome1`), whether the
`start_chat` inside the retry branch succeeds (`startOk2`), and the outcome
of the retry attempt (`outcome2`). -/
structure GeminiEnv where
  startOk1 : Bool
  outcome1 : RemoteOutcome
  startOk2 : Bool
  outcome2 : RemoteOutcome
deriving DecidableEq

/-- One remote send attempt actually performed: whether it went to a freshly
created remote conversation, and the payload delivered. -/
structure Attempt where
  fresh : Bool
  payload : Payload
deriving DecidableEq

/-- Result of a `RepairMateAssistant.send_message` call: the string returned
to the caller, whether `self.chat` is set afterwards, the remote attempts
performed in order, and whether the returned string is a successful model
reply (`response.text`) rather than an error string. -/
structure SendOut where
  response : String
  chatAfter : Bool
  attempts : List Attempt
  ok : Bool
deriving DecidableEq

/-- Decides whether `needle` occurs as a contiguous substring of the
character list. -/
def listContainsSub (needle : List Char) : List Char → Bool
  | [] => needle.isEmpty
  | c :: rest => List.isPrefixOf needle (c :: rest) || listContainsSub needle rest

/-- The retry heuristic of `send_message`:
`"400" in error_msg or "role" in error_msg.lower()`; lowering is applied
character by character. -/
def isRetryMarker (msg : String) : Bool :=
  listContainsSub "400".toList msg.toList ||
    listContainsSub "role".toList (msg.toList.map Char.toLower)

/-- The error string returned by `send_message` when the remote call failed:
`f"❌ Error: \x7berror_msg\x7d. Please try again or check your API key."`. -/
def errString (msg : String) : String :=
  "❌ Error: " ++ msg ++ ". Please try again or check your API key."

/-- The `content` list built inside `send_message`: starts empty, appends
`media_data` if provided, then appends the message text. -/
def buildContent (message : String) (media_data : Option MediaRef) : List Part :=
  match media_data with
  | some m => [Part.media m, Part.text message]
  | none => [Part.text message]

/-- Payload of the first attempt: the `content` list if it has more than one
element, otherwise the bare message string. -/
def firstPayload (message : String) (media_data : Option MediaRef) : Payload :=
  let content := buildContent message media_data
  if content.length > 1 then Payload.parts content else Payload.bare message

/-- Payload of the retry attempt: `[media_data, message]` if media was
provided, otherwise the bare message string. -/
def retryPayload (message : String) (media_data : Option MediaRef) : Payload :=
  match media_data with
  | some m => Payload.parts [Part.media m, Part.text message]
  | none => Payload.bare message

/-- Shallow embedding of `RepairMateAssistant.send_message`.
`api_configured` is the assistant's `self.api_configured`; `chat0` records
whether `self.chat` is non-None at entry.  All exceptions of the remote
calls are represented by `RemoteOutcome.err` in `env`; the function is
total, mirroring the fact that `send_message` never lets an exception
escape. -/
def send_message (api_configured : Bool) (chat0 : Bool) (message : String)
    (media_data : Option MediaRef) (env : GeminiEnv) : SendOut :=
  if !api_configured then
    { response := "❌ API not configured properly. Please check your API key.",
      chatAfter := chat0, attempts := [], ok := false }
  else if !chat0 && !env.startOk1 then
    { response := "❌ Failed to start chat session.",
      chatAfter := false, attempts := [], ok := false }
  else
    let fresh1 := !chat0
    let p1 := firstPayload message media_data
    match env.outcome1 with
    | RemoteOutcome.ok t =>
      { response := t, chatAfter := true, attempts := [⟨fresh1, p1⟩], ok := true }
    | RemoteOutcome.err msg =>
      if isRetryMarker msg then
        if env.startOk2 then
          let p2 := retryPayload message media_data
          match env.outcome2 with
          | RemoteOutcome.ok t =>
            { response := t, chatAfter := true,
              attempts := [⟨fresh1, p1⟩, ⟨true, p2⟩], ok := true }
          | RemoteOutcome.err _ =>
            { response := errString msg, chatAfter := true,
              attempts := [⟨fresh1, p1⟩, ⟨true, p2⟩], ok := false }
        else
          { response := errString msg, chatAfter := false,
            attempts := [⟨fresh1, p1⟩], ok := false }
      else
        { response := errString msg, chatAfter := true,
          attempts := [⟨fresh1, p1⟩], ok := false }

/-- The assistant object held in `st.session_state.assistant`: its
`api_configured` flag and whether `self.chat` is currently set. -/
structure AssistantState where
  api_configured : Bool
  chat : Bool
deriving DecidableEq

/-- The Streamlit session state fields the handlers read and write. -/
structure AppState where
  chat_history : List ChatTurn
  uploaded_media : Option MediaRef
  media_type : Option MediaKind
  conversation_started : Bool
  assistant : Option AssistantState
  user_input : String
deriving DecidableEq

/-- Rendering of `st.session_state.media_type` inside an f-string:
"image", "video", or "None" when unset. -/
def kindStr : Option MediaKind → String
  | some MediaKind.image => "image"
  | some MediaKind.video => "video"
  | none => "None"

/-- The decorated first-turn message built by the send handler when media is
attached. -/
def decoratedMessage (k : Option MediaKind) (user_input : String) : String :=
  "I have uploaded a " ++ kindStr k ++
    " showing an issue. Here\x27s my description of the problem: " ++
    user_input ++ ". Please analyze the " ++ kindStr k ++
    " and help me fix this issue step by step. Please provide detailed instructions and mention any tools I might need."

/-- The user-visible notice produced by a send-button press: either none
(the send proceeded) or one of the three `st.error` messages. -/
inductive UINotice
  | ok
  | assistantNotInitialized
  | configureApiKey
  | describeYourIssue
deriving DecidableEq

/-- Everything observable about one press of the send button: the session
state afterwards, the notice displayed, the string appended as the assistant
turn (when a send happened), the remote attempts performed, and whether the
remote reply was successful. -/
structure StepOut where
  state : AppState
  notice : UINotice
  response : Option String
  attempts : List Attempt
  sendOk : Bool
deriving DecidableEq

/-- Shallow embedding of the send-button handler
(`if send_button and user_input and api_configured: ... elif ... elif ...`).
`api` is the module-level `api_configured = bool(config[...])`. -/
def sendButtonStep (api : Bool) (env : GeminiEnv) (s : AppState) : StepOut :=
  if (s.user_input != "") && api then
    match s.assistant with
    | none =>
      { state := s, notice := UINotice.assistantNotInitialized,
        response := none, attempts := [], sendOk := false }
    | some a =>
      let hist1 := s.chat_history ++ [ChatTurn.mk Role.user s.user_input]
      let withMediaNow := !s.conversation_started && s.uploaded_media.isSome
      let message_content :=
        if withMediaNow then decoratedMessage s.media_type s.user_input
        else s.user_input
      let media_to_send := if withMediaNow then s.uploaded_media else none
      let out := send_message a.api_configured a.chat message_content media_to_send env
      { state :=
          { chat_history := hist1 ++ [ChatTurn.mk Role.assistant out.response],
            uploaded_media := s.uploaded_media,
            media_type := s.media_type,
            conversation_started := s.conversation_started || withMediaNow,
            assistant := some ⟨a.api_configured, out.chatAfter⟩,
            user_input := "" },
        notice := UINotice.ok, response := some out.response,
        attempts := out.attempts, sendOk := out.ok }
  else if !api then
    { state := s, notice := UINotice.configureApiKey,
      response := none, attempts := [], sendOk := false }
  else
    { state := s, notice := UINotice.describeYourIssue,
      response := none, attempts := [], sendOk := false }

/-- Shallow embedding of the "Start New Session" button handler. -/
def resetStep (s : AppState) : AppState :=
  { chat_history := [], uploaded_media := none, media_type := none,
    conversation_started := false,
    assistant := s.assistant.map (fun a => { a with chat := false }),
    user_input := "" }

/-- An uploaded file as seen by `process_uploaded_file`: its byte size, its
declared MIME type, and - standing for the PIL decode that the code attempts
on image files - `some id` when decoding succeeds and `none` when
`Image.open` raises. -/
structure UploadedFile where
  size_bytes : Nat
  mime : String
  imageDecode : Option Nat
deriving DecidableEq

/-- Outcome of the remote video upload-and-poll sequence inside
`process_uploaded_file`: a processed file handle, or an exception somewhere
between the upload call and the end of the polling loop. -/
inductive VideoStep
  | ok (handle : Nat)
  | procErr
deriving DecidableEq

/-- Which `st.error` message `process_uploaded_file` displayed, if any. -/
inductive MediaError
  | tooLarge
  | imageError
  | videoError
deriving DecidableEq

/-- Result of `process_uploaded_file`: the returned `(media, kind)` pair
(`(None, None)` is `none`), the error notice, and whether the video
temporary file was created and whether `os.unlink` ran on it. -/
structure ProcOut where
  result : Option (MediaRef × MediaKind)
  notice : Option MediaError
  tempCreated : Bool
  tempDeleted : Bool
deriving DecidableEq

/-- Prefix test on the declared MIME type, `uploaded_file.type.startswith(p)`. -/
def mimeStartsWith (s p : String) : Bool :=
  List.isPrefixOf p.toList s.toList

/-- Shallow embedding of `process_uploaded_file`.  The size check is
`len(bytes) / (1024*1024) > config[max_file_size]`, taken over exact
rationals. -/
def process_uploaded_file (file : UploadedFile) (max_file_size : Nat)
    (vo : VideoStep) : ProcOut :=
  if (file.size_bytes : ℚ) / (1024 * 1024) > (max_file_size : ℚ) then
    { result := none, notice := some MediaError.tooLarge,
      tempCreated := false, tempDeleted := false }
  else if mimeStartsWith file.mime "image/" then
    match file.imageDecode with
    | some i =>
      { result := some (MediaRef.image i, MediaKind.image), notice := none,
        tempCreated := false, tempDeleted := false }
    | none =>
      { result := none, notice := some MediaError.imageError,
        tempCreated := false, tempDeleted := false }
  else if mimeStartsWith file.mime "video/" then
    match vo with
    | VideoStep.ok h =>
      { result := some (MediaRef.video h, MediaKind.video), notice := none,
        tempCreated := true, tempDeleted := true }
    | VideoStep.procErr =>
      { result := none, notice := some MediaError.videoError,
        tempCreated := true, tempDeleted := false }
  else
    { result := none, notice := none, tempCreated := false, tempDeleted := false }

/-- Shallow embedding of the sidebar upload handler: run
`process_uploaded_file` and store the media in the session only when both
returned values are truthy. -/
def uploadStep (max_file_size : Nat) (file : UploadedFile) (vo : VideoStep)
    (s : AppState) : AppState × ProcOut :=
  let out := process_uploaded_file file max_file_size vo
  match out.result with
  | some (m, k) => ({ s with uploaded_media := some m, media_type := some k }, out)
  | none => (s, out)

/-- Whether a send-button press attaches media to the outgoing message: the
handler must take its main branch (non-empty input, API configured,
assistant present) with `conversation_started` still false and a stored
upload present. -/
def stepAttachesMedia (api : Bool) (s : AppState) : Bool :=
  (s.user_input != "") && api && s.assistant.isSome &&
    (!s.conversation_started) && s.uploaded_media.isSome

/-- Whether a payload carries a media part. -/
def payloadHasMedia : Payload → Bool
  | Payload.bare _ => false
  | Payload.parts l => l.any fun p => match p with
      | Part.media _ => true
      | Part.text _ => false

/-- Chat history well-formedness: strict user/assistant alternation starting
with a user turn, hence even length. -/
def alternatesUA : List ChatTurn → Bool
  | [] => true
  | [_] => false
  | t1 :: t2 :: rest =>
    decide (t1.role = Role.user) && decide (t2.role = Role.assistant) &&
      alternatesUA rest

/-- The oversize check of `process_uploaded_file`, restated over naturals. -/
theorem size_check_iff (size m : Nat) :
    ((size : ℚ) / (1024 * 1024) > (m : ℚ)) ↔ m * 1048576 < size := by
  rw [gt_iff_lt, lt_div_iff₀ (by norm_num : (0 : ℚ) < 1024 * 1024)]
  constructor
  · intro h
    exact_mod_cast h
  · intro h
    exact_mod_cast h

/-- The retry resends exactly the payload of the first attempt. -/
theorem retryPayload_eq_firstPayload (message : String) (media : Option MediaRef) :
    retryPayload message media = firstPayload message media := by
  cases media <;> simp [retryPayload, firstPayload, buildContent]

/-- Every attempt a `send_message` call performs carries the payload built
from its `message` and `media_data` arguments. -/
theorem send_message_attempt_payload (apiC chat0 : Bool) (message : String)
    (media : Option MediaRef) (env : GeminiEnv) :
    ∀ a ∈ (send_message apiC chat0 message media env).attempts,
      a.payload = firstPayload message media := by
  obtain ⟨s1, o1, s2, o2⟩ := env
  intro a ha
  unfold send_message at ha
  split at ha
  · simp at ha
  split at ha
  · simp at ha
  cases o1 with
  | ok t =>
    simp at ha
    rw [ha]
  | err msg =>
    simp only at ha
    split at ha
    · split at ha
      · cases o2 <;> simp at ha <;> rcases ha with ha | ha <;>
          simp [ha, retryPayload_eq_firstPayload]
      · simp at ha
        rw [ha]
    · simp at ha
      rw [ha]

/-- A payload built without media carries no media part. -/
theorem firstPayload_none_no_media (message : String) :
    payloadHasMedia (firstPayload message none) = false := by
  simp [firstPayload, buildContent, payloadHasMedia]

/-- When `send_message` is invoked with `media_data = None`, none of its
remote attempts carries media. -/
theorem send_message_no_media (apiC chat0 : Bool) (message : String)
    (env : GeminiEnv) :
    ∀ a ∈ (send_message apiC chat0 message none env).attempts,
      payloadHasMedia a.payload = false := by
  intro a ha
  rw [send_message_attempt_payload apiC chat0 message none env a ha]
  exact firstPayload_none_no_media message

/-- When `self.chat` is unset at entry, any first attempt `send_message`
performs goes to a freshly created remote conversation. -/
theorem send_message_fresh_of_no_chat (apiC : Bool) (message : String)
    (media : Option MediaRef) (env : GeminiEnv) :
    ∀ a0, ((send_message apiC false message media env).attempts).head? = some a0 →
      a0.fresh = true := by
  obtain ⟨s1, o1, s2, o2⟩ := env
  intro a0 ha
  unfold send_message at ha
  split at ha
  · simp at ha
  split at ha
  · simp at ha
  cases o1 with
  | ok t =>
    simp at ha
    subst ha
    rfl
  | err msg =>
    simp only at ha
    split at ha
    · split at ha
      · cases o2 <;> simp at ha <;> subst ha <;> rfl
      · simp at ha
        subst ha
        rfl
    · simp at ha
      subst ha
      rfl

/-- Appending to a well-formed alternating history shifts the check to the
appended suffix. -/
theorem alternatesUA_append (l l2 : List ChatTurn) (h : alternatesUA l = true) :
    alternatesUA (l ++ l2) = alternatesUA l2 := by
  induction l using alternatesUA.induct with
  | case1 => simp
  | case2 t => simp [alternatesUA] at h
  | case3 t1 t2 rest ih =>
    simp only [alternatesUA, Bool.and_eq_true] at h
    simp only [List.cons_append, alternatesUA, h.1.1, h.1.2, Bool.true_and]
    exact ih h.2

/-- For a ready send (conversation already present, or successfully started
at entry), the first remote attempt carries the payload built from the call
arguments, and is fresh exactly when the conversation was created in this
call. -/
theorem send_message_first_attempt (chat0 : Bool) (message : String)
    (media : Option MediaRef) (env : GeminiEnv)
    (hready : chat0 = true ∨ env.startOk1 = true) :
    ((send_message true chat0 message media env).attempts).head?
      = some ⟨!chat0, firstPayload message media⟩ := by
  have hcond : (!chat0 && !env.startOk1) = false := by
    rcases hready with h | h <;> rw [h] <;> simp
  unfold send_message
  simp only [Bool.not_true, hcond, Bool.false_eq_true, if_false]
  cases ho : env.outcome1 with
  | ok t => rfl
  | err msg =>
    dsimp only
    split
    · split
      · cases env.outcome2 <;> rfl
      · rfl
    · rfl

/-- For a ready send whose first attempt fails with the retry marker and
whose fresh conversation can be created, `send_message` performs exactly the
original attempt and one fresh retry with the same payload, and returns the
retry text on success and the error string of the first failure otherwise. -/
theorem send_message_retry (chat0 : Bool) (message : String)
    (media : Option MediaRef) (env : GeminiEnv) (msg1 : String)
    (hready : chat0 = true ∨ env.startOk1 = true)
    (h1 : env.outcome1 = RemoteOutcome.err msg1)
    (hmark : isRetryMarker msg1 = true)
    (hstart2 : env.startOk2 = true) :
    (send_message true chat0 message media env).attempts
      = [⟨!chat0, firstPayload message media⟩,
         ⟨true, firstPayload message media⟩] ∧
    (send_message true chat0 message media env).response
      = (match env.outcome2 with
         | RemoteOutcome.ok t => t
         | RemoteOutcome.err _ => errString msg1) := by
  have hcond : (!chat0 && !env.startOk1) = false := by
    rcases hready with h | h <;> rw [h] <;> simp
  unfold send_message
  simp only [Bool.not_true, hcond, Bool.false_eq_true, if_false]
  rw [h1]
  dsimp only
  simp only [hmark, hstart2, if_true, retryPayload_eq_firstPayload]
  cases env.outcome2 <;> simp

/-- A MIME type that starts with "video/" does not start with "image/". -/
theorem video_not_image (s : String) (h : mimeStartsWith s "video/" = true) :
    mimeStartsWith s "image/" = false := by
  unfold mimeStartsWith at h ⊢
  cases hl : s.toList with
  | nil => rw [hl] at h; simp [List.isPrefixOf] at h
  | cons c rest =>
    rw [hl] at h
    simp only [List.isPrefixOf, Bool.and_eq_true, beq_iff_eq] at h
    have hc : c = 'v' := h.1.symm
    subst hc
    have hiv : ('i' == 'v') = false := by decide
    simp [List.isPrefixOf, hiv]

/-- C2 (counterexample): for a send carrying media, the payload delivered to
the remote model is not the list `[text, media]` — at this concrete input
the delivered list puts the media part first. -/
theorem C2_counterexample :
    ¬ ((send_message true true "hi" (some (MediaRef.image 0))
          ⟨true, RemoteOutcome.ok "t", true, RemoteOutcome.ok "u"⟩).attempts.map
            (fun a => a.payload)
        = [Payload.parts [Part.text "hi", Part.media (MediaRef.image 0)]]) := by
  decide

/-- C2 (amended): for every send that carries media, the payload delivered
to the remote model is the two-part list `[media, text]` — media first, text
second; a send without media delivers the bare message string. -/
theorem C2_payload_shape (chat0 : Bool) (message : String)
    (media : Option MediaRef) (env : GeminiEnv)
    (hready : chat0 = true ∨ env.startOk1 = true) :
    ((send_message true chat0 message media env).attempts.map
        (fun a => a.payload)).head?
      = some (match media with
          | some m => Payload.parts [Part.media m, Part.text message]
          | none => Payload.bare message) := by
  have h := send_message_first_attempt chat0 message media env hready
  rcases hl : (send_message true chat0 message media env).attempts with _ | ⟨a0, rest⟩
  · rw [hl] at h
    simp at h
  · rw [hl] at h
    simp only [List.head?] at h ⊢
    simp only [List.map]
    have ha0 : a0 = ⟨!chat0, firstPayload message media⟩ := by
      injection h
    rw [ha0]
    cases media <;> simp [firstPayload, buildContent]

/-- C2 witness: concrete instantiation of `C2_payload_shape` with media. -/
theorem C2_payload_shape_witness :
    ((true : Bool) = true ∨
      (⟨true, RemoteOutcome.ok "t", true, RemoteOutcome.ok "u"⟩ : GeminiEnv).startOk1 = true) ∧
    ((send_message true true "hi" (some (MediaRef.image 3))
        ⟨true, RemoteOutcome.ok "t", true, RemoteOutcome.ok "u"⟩).attempts.map
          (fun a => a.payload)).head?
      = some (Payload.parts [Part.media (MediaRef.image 3), Part.text "hi"]) :=
  ⟨Or.inl rfl,
    C2_payload_shape true "hi" (some (MediaRef.image 3))
      ⟨true, RemoteOutcome.ok "t", true, RemoteOutcome.ok "u"⟩ (Or.inl rfl)⟩

/-- C3: a send whose remote call fails with a session/role marker in the
error text is retried exactly once against a freshly created remote
conversation with the same payload; a successful retry's text is returned,
a failed retry yields the error string, and `send_message` is a total
function, so no exception escapes it. -/
theorem C3_retry_once (chat0 : Bool) (message : String)
    (media : Option MediaRef) (env : GeminiEnv) (msg1 : String)
    (hready : chat0 = true ∨ env.startOk1 = true)
    (h1 : env.outcome1 = RemoteOutcome.err msg1)
    (hmark : isRetryMarker msg1 = true)
    (hstart2 : env.startOk2 = true) :
    ((send_message true chat0 message media env).attempts.map
        (fun a => a.payload))
      = [firstPayload message media, firstPayload message media] ∧
    ((send_message true chat0 message media env).attempts.map
        (fun a => a.fresh)).getLast? = some true ∧
    (∀ t, env.outcome2 = RemoteOutcome.ok t →
      (send_message true chat0 message media env).response = t) ∧
    (∀ m2, env.outcome2 = RemoteOutcome.err m2 →
      (send_message true chat0 message media env).response = errString msg1) := by
  obtain ⟨hatt, hresp⟩ := send_message_retry chat0 message media env msg1 hready h1 hmark hstart2
  refine ⟨by rw [hatt]; rfl, by rw [hatt]; rfl, ?_, ?_⟩
  · intro t h2
    rw [hresp, h2]
  · intro m2 h2
    rw [hresp, h2]

/-- C3 witness: concrete retry where the first call fails with a "400"
marker and the retry succeeds. -/
theorem C3_retry_once_witness :
    ((true : Bool) = true ∨
      (⟨true, RemoteOutcome.err "400 INVALID_ARGUMENT", true,
        RemoteOutcome.ok "fixed"⟩ : GeminiEnv).startOk1 = true) ∧
    (⟨true, RemoteOutcome.err "400 INVALID_ARGUMENT", true,
        RemoteOutcome.ok "fixed"⟩ : GeminiEnv).outcome1
      = RemoteOutcome.err "400 INVALID_ARGUMENT" ∧
    isRetryMarker "400 INVALID_ARGUMENT" = true ∧
    (⟨true, RemoteOutcome.err "400 INVALID_ARGUMENT", true,
        RemoteOutcome.ok "fixed"⟩ : GeminiEnv).startOk2 = true ∧
    (((send_message true true "help" none
        ⟨true, RemoteOutcome.err "400 INVALID_ARGUMENT", true,
          RemoteOutcome.ok "fixed"⟩).attempts.map (fun a => a.payload))
      = [firstPayload "help" none, firstPayload "help" none] ∧
    ((send_message true true "help" none
        ⟨true, RemoteOutcome.err "400 INVALID_ARGUMENT", true,
          RemoteOutcome.ok "fixed"⟩).attempts.map (fun a => a.fresh)).getLast?
        = some true ∧
    (∀ t, (⟨true, RemoteOutcome.err "400 INVALID_ARGUMENT", true,
          RemoteOutcome.ok "fixed"⟩ : GeminiEnv).outcome2 = RemoteOutcome.ok t →
      (send_message true true "help" none
        ⟨true, RemoteOutcome.err "400 INVALID_ARGUMENT", true,
          RemoteOutcome.ok "fixed"⟩).response = t) ∧
    (∀ m2, (⟨true, RemoteOutcome.err "400 INVALID_ARGUMENT", true,
          RemoteOutcome.ok "fixed"⟩ : GeminiEnv).outcome2 = RemoteOutcome.err m2 →
      (send_message true true "help" none
        ⟨true, RemoteOutcome.err "400 INVALID_ARGUMENT", true,
          RemoteOutcome.ok "fixed"⟩).response = errString "400 INVALID_ARGUMENT")) :=
  ⟨Or.inl rfl, rfl, by decide, rfl,
    C3_retry_once true "help" none
      ⟨true, RemoteOutcome.err "400 INVALID_ARGUMENT", true, RemoteOutcome.ok "fixed"⟩
      "400 INVALID_ARGUMENT" (Or.inl rfl) rfl (by decide) rfl⟩

/-- C10: when the first remote call fails with a session/role-marker error
and the one-shot retry also fails, the string returned embeds the message of
the original failure, whatever the retry's failure message was. -/
theorem C10_first_error_surfaced (chat0 : Bool) (message : String)
    (media : Option MediaRef) (env : GeminiEnv) (msg1 msg2 : String)
    (hready : chat0 = true ∨ env.startOk1 = true)
    (h1 : env.outcome1 = RemoteOutcome.err msg1)
    (hmark : isRetryMarker msg1 = true)
    (hstart2 : env.startOk2 = true)
    (h2 : env.outcome2 = RemoteOutcome.err msg2) :
    (send_message true chat0 message media env).response = errString msg1 := by
  obtain ⟨-, hresp⟩ := send_message_retry chat0 message media env msg1 hready h1 hmark hstart2
  rw [hresp, h2]

/-- C10 witness: both calls fail with different messages; the original one
is the one embedded in the returned error string. -/
theorem C10_first_error_surfaced_witness :
    ((true : Bool) = true ∨
      (⟨true, RemoteOutcome.err "role mismatch in history", true,
        RemoteOutcome.err "temporarily unavailable"⟩ : GeminiEnv).startOk1 = true) ∧
    (⟨true, RemoteOutcome.err "role mismatch in history", true,
        RemoteOutcome.err "temporarily unavailable"⟩ : GeminiEnv).outcome1
      = RemoteOutcome.err "role mismatch in history" ∧
    isRetryMarker "role mismatch in history" = true ∧
    (⟨true, RemoteOutcome.err "role mismatch in history", true,
        RemoteOutcome.err "temporarily unavailable"⟩ : GeminiEnv).startOk2 = true ∧
    (⟨true, RemoteOutcome.err "role mismatch in history", true,
        RemoteOutcome.err "temporarily unavailable"⟩ : GeminiEnv).outcome2
      = RemoteOutcome.err "temporarily unavailable" ∧
    (send_message true true "help" none
        ⟨true, RemoteOutcome.err "role mismatch in history", true,
          RemoteOutcome.err "temporarily unavailable"⟩).response
      = errString "role mismatch in history" :=
  ⟨Or.inl rfl, rfl, by decide, rfl, rfl,
    C10_first_error_surfaced true "help" none
      ⟨true, RemoteOutcome.err "role mismatch in history", true,
        RemoteOutcome.err "temporarily unavailable"⟩
      "role mismatch in history" "temporarily unavailable"
      (Or.inl rfl) rfl (by decide) rfl rfl⟩

/-- C1 (counterexample): on a fresh session holding uploaded media, a send
whose remote call fails (the returned string is the error string, not a
model reply) still sets the media_sent flag (`conversation_started`) to
true, so the flag does not become true only after the first successful
send. -/
theorem C1_counterexample :
    ((⟨[], some (MediaRef.image 0), some MediaKind.image, false,
        some ⟨true, false⟩, "hi"⟩ : AppState).conversation_started = false) ∧
    (sendButtonStep true ⟨true, RemoteOutcome.err "boom", true, RemoteOutcome.ok "t"⟩
        ⟨[], some (MediaRef.image 0), some MediaKind.image, false,
          some ⟨true, false⟩, "hi"⟩).sendOk = false ∧
    (sendButtonStep true ⟨true, RemoteOutcome.err "boom", true, RemoteOutcome.ok "t"⟩
        ⟨[], some (MediaRef.image 0), some MediaKind.image, false,
          some ⟨true, false⟩, "hi"⟩).state.conversation_started = true := by
  decide

/-- C1 (amended): per send press the media_sent flag (`conversation_started`)
becomes `old || attach`, where attach holds exactly when this press attaches
the stored media (main branch taken with the flag still false and media
present) — irrespective of whether the remote call succeeds; so the flag
flips to true at most once per session.  And once the flag is true, no
remote attempt of a later send carries media, even if a new file has been
uploaded since. -/
theorem C1_media_sent_flag (api : Bool) (env : GeminiEnv) (s : AppState) :
    (sendButtonStep api env s).state.conversation_started
      = (s.conversation_started || stepAttachesMedia api s) ∧
    (s.conversation_started = true →
      ∀ a ∈ (sendButtonStep api env s).attempts,
        payloadHasMedia a.payload = false) := by
  unfold sendButtonStep stepAttachesMedia
  by_cases hc : ((s.user_input != "") && api) = true
  · rw [if_pos hc]
    cases ha : s.assistant with
    | none =>
      constructor
      · simp
      · intro _ a hmem
        simp at hmem
    | some b =>
      constructor
      · dsimp only
        simp [hc]
      · intro hst
        dsimp only
        simp only [hst, Bool.not_true, Bool.false_and, if_false]
        exact send_message_no_media _ _ _ _
  · rw [if_neg hc]
    have hc' : ((s.user_input != "") && api) = false := by
      simpa using hc
    constructor
    · split <;> simp [hc']
    · intro _ a hmem
      split at hmem <;> simp at hmem

/-- C1 witness: with the flag already true and a (new) file stored, a send
attaches no media to any remote attempt. -/
theorem C1_media_sent_flag_witness :
    ((⟨[], some (MediaRef.image 7), some MediaKind.image, true,
        some ⟨true, true⟩, "again"⟩ : AppState).conversation_started = true) ∧
    ∀ a ∈ (sendButtonStep true ⟨true, RemoteOutcome.ok "t", true, RemoteOutcome.ok "u"⟩
        (⟨[], some (MediaRef.image 7), some MediaKind.image, true,
          some ⟨true, true⟩, "again"⟩ : AppState)).attempts,
      payloadHasMedia a.payload = false :=
  ⟨rfl,
    (C1_media_sent_flag true ⟨true, RemoteOutcome.ok "t", true, RemoteOutcome.ok "u"⟩
      ⟨[], some (MediaRef.image 7), some MediaKind.image, true,
        some ⟨true, true⟩, "again"⟩).2 rfl⟩

/-- C4 (counterexample): pressing send with no API key configured appends no
turn at all — at this concrete input the chat history stays empty, so no
assistant turn carrying the configuration-missing marker is appended. -/
theorem C4_counterexample :
    (sendButtonStep false ⟨true, RemoteOutcome.ok "t", true, RemoteOutcome.ok "u"⟩
        ⟨[], none, none, false, none, "help"⟩).state.chat_history = [] ∧
    (sendButtonStep false ⟨true, RemoteOutcome.ok "t", true, RemoteOutcome.ok "u"⟩
        ⟨[], none, none, false, none, "help"⟩).attempts = [] := by
  decide

/-- C4 (amended): with no API key configured a send press performs no remote
call, leaves the whole session state (chat history included) unchanged, and
only displays the configuration error notice. -/
theorem C4_no_api_key (env : GeminiEnv) (s : AppState) :
    (sendButtonStep false env s).state = s ∧
    (sendButtonStep false env s).attempts = [] ∧
    (sendButtonStep false env s).notice = UINotice.configureApiKey := by
  unfold sendButtonStep
  simp

/-- C9: a send press with empty input text leaves the session state entirely
unchanged, performs no remote call, and displays an error notice. -/
theorem C9_empty_input_frame (api : Bool) (env : GeminiEnv) (s : AppState)
    (h : s.user_input = "") :
    (sendButtonStep api env s).state = s ∧
    (sendButtonStep api env s).attempts = [] ∧
    (sendButtonStep api env s).notice ≠ UINotice.ok := by
  unfold sendButtonStep
  rw [h]
  simp only [bne_self_eq_false, Bool.false_and, Bool.false_eq_true, if_false]
  split <;> simp

/-- C9 witness: concrete empty-input press with the API configured. -/
theorem C9_empty_input_frame_witness :
    ((⟨[], none, none, false, some ⟨true, true⟩, ""⟩ : AppState).user_input = "") ∧
    ((sendButtonStep true ⟨true, RemoteOutcome.ok "t", true, RemoteOutcome.ok "u"⟩
        (⟨[], none, none, false, some ⟨true, true⟩, ""⟩ : AppState)).state
      = (⟨[], none, none, false, some ⟨true, true⟩, ""⟩ : AppState) ∧
    (sendButtonStep true ⟨true, RemoteOutcome.ok "t", true, RemoteOutcome.ok "u"⟩
        (⟨[], none, none, false, some ⟨true, true⟩, ""⟩ : AppState)).attempts = [] ∧
    (sendButtonStep true ⟨true, RemoteOutcome.ok "t", true, RemoteOutcome.ok "u"⟩
        (⟨[], none, none, false, some ⟨true, true⟩, ""⟩ : AppState)).notice
      ≠ UINotice.ok) :=
  ⟨rfl,
    C9_empty_input_frame true ⟨true, RemoteOutcome.ok "t", true, RemoteOutcome.ok "u"⟩
      ⟨[], none, none, false, some ⟨true, true⟩, ""⟩ rfl⟩

/-- C8: a send press that reaches the assistant appends exactly two turns in
order — a user turn whose content is exactly the typed text, then an
assistant turn whose content is the string `send_message` returned — and
preserves strict user/assistant alternation (hence even length) of the
history. -/
theorem C8_send_appends_two_turns (api : Bool) (env : GeminiEnv) (s : AppState)
    (a : AssistantState) (hin : s.user_input ≠ "") (hapi : api = true)
    (ha : s.assistant = some a) :
    (∃ r, (sendButtonStep api env s).response = some r ∧
      (sendButtonStep api env s).state.chat_history
        = s.chat_history ++ [ChatTurn.mk Role.user s.user_input,
                             ChatTurn.mk Role.assistant r]) ∧
    (alternatesUA s.chat_history = true →
      alternatesUA (sendButtonStep api env s).state.chat_history = true) := by
  subst hapi
  have hin' : (s.user_input != "") = true := by simpa using hin
  unfold sendButtonStep
  rw [ha]
  simp only [hin', Bool.and_true, if_true]
  constructor
  · exact ⟨_, rfl, by simp⟩
  · intro halt
    rw [List.append_assoc, alternatesUA_append _ _ halt]
    rfl

/-- C8 witness: concrete send on a fresh session producing exactly the two
turns. -/
theorem C8_send_appends_two_turns_witness :
    (("hi" : String) ≠ "" ∧ (true : Bool) = true ∧
      (⟨[], none, none, false, some ⟨true, true⟩, "hi"⟩ : AppState).assistant
        = some ⟨true, true⟩) ∧
    ((∃ r, (sendButtonStep true ⟨true, RemoteOutcome.ok "resp", true, RemoteOutcome.ok "u"⟩
        (⟨[], none, none, false, some ⟨true, true⟩, "hi"⟩ : AppState)).response = some r ∧
      (sendButtonStep true ⟨true, RemoteOutcome.ok "resp", true, RemoteOutcome.ok "u"⟩
        (⟨[], none, none, false, some ⟨true, true⟩, "hi"⟩ : AppState)).state.chat_history
        = ([] : List ChatTurn) ++ [ChatTurn.mk Role.user "hi",
                                   ChatTurn.mk Role.assistant r]) ∧
    (alternatesUA [] = true →
      alternatesUA (sendButtonStep true ⟨true, RemoteOutcome.ok "resp", true, RemoteOutcome.ok "u"⟩
        (⟨[], none, none, false, some ⟨true, true⟩, "hi"⟩ : AppState)).state.chat_history
        = true)) :=
  ⟨⟨by decide, rfl, rfl⟩,
    C8_send_appends_two_turns true ⟨true, RemoteOutcome.ok "resp", true, RemoteOutcome.ok "u"⟩
      ⟨[], none, none, false, some ⟨true, true⟩, "hi"⟩ ⟨true, true⟩
      (by decide) rfl rfl⟩

/-- C5: a file whose size in bytes divided by 1024*1024 exceeds the
configured limit is rejected with the TooLarge error, nothing is returned,
and the upload handler leaves the session state (stored media and media
kind included) unchanged. -/
theorem C5_too_large (maxMB : Nat) (file : UploadedFile) (vo : VideoStep)
    (s : AppState)
    (h : (file.size_bytes : ℚ) / (1024 * 1024) > (maxMB : ℚ)) :
    (process_uploaded_file file maxMB vo).notice = some MediaError.tooLarge ∧
    (process_uploaded_file file maxMB vo).result = none ∧
    (uploadStep maxMB file vo s).1 = s := by
  have hp : process_uploaded_file file maxMB vo
      = { result := none, notice := some MediaError.tooLarge,
          tempCreated := false, tempDeleted := false } := by
    unfold process_uploaded_file
    rw [if_pos h]
  refine ⟨by rw [hp], by rw [hp], ?_⟩
  unfold uploadStep
  rw [hp]

/-- C5 witness: a 250MB file against a 200MB limit is rejected and the
session is untouched. -/
theorem C5_too_large_witness :
    (((262144000 : Nat) : ℚ) / (1024 * 1024) > ((200 : Nat) : ℚ)) ∧
    ((process_uploaded_file ⟨262144000, "video/mp4", none⟩ 200
        (VideoStep.ok 0)).notice = some MediaError.tooLarge ∧
    (process_uploaded_file ⟨262144000, "video/mp4", none⟩ 200
        (VideoStep.ok 0)).result = none ∧
    (uploadStep 200 ⟨262144000, "video/mp4", none⟩ (VideoStep.ok 0)
        (⟨[], none, none, false, none, ""⟩ : AppState)).1
      = (⟨[], none, none, false, none, ""⟩ : AppState)) :=
  ⟨(size_check_iff 262144000 200).mpr (by decide),
    C5_too_large 200 ⟨262144000, "video/mp4", none⟩ (VideoStep.ok 0)
      ⟨[], none, none, false, none, ""⟩
      ((size_check_iff 262144000 200).mpr (by decide))⟩

/-- C6: the Start New Session handler yields an empty turn list, no stored
media, no media kind, a false media_sent flag and no remote conversation
handle; consequently the next send (after new input is typed) performs its
first remote attempt against a freshly created conversation. -/
theorem C6_reset (s : AppState) :
    (resetStep s).chat_history = [] ∧
    (resetStep s).uploaded_media = none ∧
    (resetStep s).media_type = none ∧
    (resetStep s).conversation_started = false ∧
    (∀ a, (resetStep s).assistant = some a → a.chat = false) ∧
    (∀ api env t a0,
      (sendButtonStep api env { resetStep s with user_input := t }).attempts.head?
        = some a0 → a0.fresh = true) := by
  refine ⟨rfl, rfl, rfl, rfl, ?_, ?_⟩
  · intro a ha
    unfold resetStep at ha
    cases hs : s.assistant with
    | none =>
      rw [hs] at ha
      simp at ha
    | some b =>
      rw [hs] at ha
      simp at ha
      rw [← ha]
  · intro api env t a0 hhead
    unfold sendButtonStep at hhead
    split at hhead
    · cases hs : s.assistant with
      | none =>
        rw [show ({ resetStep s with user_input := t } : AppState).assistant = none by
              simp [resetStep, hs]] at hhead
        simp at hhead
      | some b =>
        rw [show ({ resetStep s with user_input := t } : AppState).assistant
              = some ⟨b.api_configured, false⟩ by simp [resetStep, hs]] at hhead
        exact send_message_fresh_of_no_chat _ _ _ _ a0 hhead
    · split at hhead <;> simp at hhead

/-- C6 witness: concrete reset followed by a send with fresh input, whose
first remote attempt goes to a freshly created conversation. -/
theorem C6_reset_witness :
    ((resetStep (⟨[⟨Role.user, "old"⟩, ⟨Role.assistant, "a"⟩],
        some (MediaRef.image 1), some MediaKind.image, true,
        some ⟨true, true⟩, "leftover"⟩ : AppState)).assistant
      = some ⟨true, false⟩ ∧
      (⟨true, false⟩ : AssistantState).chat = false) ∧
    ((sendButtonStep true ⟨true, RemoteOutcome.ok "t", true, RemoteOutcome.ok "u"⟩
        { resetStep (⟨[⟨Role.user, "old"⟩, ⟨Role.assistant, "a"⟩],
            some (MediaRef.image 1), some MediaKind.image, true,
            some ⟨true, true⟩, "leftover"⟩ : AppState) with
          user_input := "hello" }).attempts.head?
      = some ⟨true, Payload.bare "hello"⟩ ∧
      (⟨true, Payload.bare "hello"⟩ : Attempt).fresh = true) :=
  ⟨⟨rfl, rfl⟩,
    ⟨by decide,
      (C6_reset ⟨[⟨Role.user, "old"⟩, ⟨Role.assistant, "a"⟩],
          some (MediaRef.image 1), some MediaKind.image, true,
          some ⟨true, true⟩, "leftover"⟩).2.2.2.2.2
        true ⟨true, RemoteOutcome.ok "t", true, RemoteOutcome.ok "u"⟩ "hello"
        ⟨true, Payload.bare "hello"⟩ (by decide)⟩⟩

/-- C7 (counterexample): a video ingestion whose remote upload/processing
raises creates the temporary file but never releases it, so cleanup is not
guaranteed on all exit paths. -/
theorem C7_counterexample :
    (process_uploaded_file ⟨1048576, "video/mp4", none⟩ 200
        VideoStep.procErr).tempCreated = true ∧
    (process_uploaded_file ⟨1048576, "video/mp4", none⟩ 200
        VideoStep.procErr).tempDeleted = false := by
  have hs : ¬ (((1048576 : Nat) : ℚ) / (1024 * 1024) > ((200 : Nat) : ℚ)) :=
    fun hc => absurd ((size_check_iff 1048576 200).mp hc) (by decide)
  unfold process_uploaded_file
  rw [if_neg hs, if_neg (by decide), if_pos (by decide)]
  exact ⟨rfl, rfl⟩

/-- C7 (amended): for a video upload within the size limit the temporary
file is created, and it is released iff the remote upload-and-poll sequence
completes without raising; on the exception path the temporary file is not
released. -/
theorem C7_temp_cleanup (file : UploadedFile) (maxMB : Nat) (vo : VideoStep)
    (hmime : mimeStartsWith file.mime "video/" = true)
    (hsize : ¬ ((file.size_bytes : ℚ) / (1024 * 1024) > (maxMB : ℚ))) :
    (process_uploaded_file file maxMB vo).tempCreated = true ∧
    ((process_uploaded_file file maxMB vo).tempDeleted = true
      ↔ vo ≠ VideoStep.procErr) := by
  have himg := video_not_image file.mime hmime
  unfold process_uploaded_file
  rw [if_neg hsize, if_neg (by simp [himg]), if_pos hmime]
  cases vo with
  | ok h => simp
  | procErr => simp

/-- C7 witness: a small video whose processing succeeds has its temporary
file created and released. -/
theorem C7_temp_cleanup_witness :
    (mimeStartsWith "video/mp4" "video/" = true ∧
      ¬ (((1048576 : Nat) : ℚ) / (1024 * 1024) > ((200 : Nat) : ℚ))) ∧
    ((process_uploaded_file ⟨1048576, "video/mp4", none⟩ 200
        (VideoStep.ok 5)).tempCreated = true ∧
      ((process_uploaded_file ⟨1048576, "video/mp4", none⟩ 200
        (VideoStep.ok 5)).tempDeleted = true ↔ VideoStep.ok 5 ≠ VideoStep.procErr)) :=
  ⟨⟨by decide, fun hc => absurd ((size_check_iff 1048576 200).mp hc) (by decide)⟩,
    C7_temp_cleanup ⟨1048576, "video/mp4", none⟩ 200 (VideoStep.ok 5) (by decide)
      (fun hc => absurd ((size_check_iff 1048576 200).mp hc) (by decide))⟩

end RepairMate
